import Mathlib

/-!
Shallow embedding of the interaction core of the waimea window manager
(src/src/Event.cc, src/src/Screen.cc, src/src/Window.cc), together with
proofs about the behaviour its specification describes.  All machine
integers are modelled as `Int`/`Nat`; C `%` on `int` is `Int.tmod`
(truncation toward zero), and casts to `unsigned long` are `emod 2^64`.
-/

namespace Waimea

/-- Modelled from the spec: the "modal-in-progress" pseudo-modifier bit
`MoveResizeMask`.  Its numeric value comes from a header that is not part
of the sources given (`Event.hh`); the spec only requires it to be a
single bit distinct from the 13 real X modifier bits (bits 0..12), so it
is taken to be bit 25. -/
def MoveResizeMask : Nat := 2 ^ 25

/-- An action binding, `WaAction` (the fields `eventmatch` reads):
event type, detail code, required modifier mask `mod`, forbidden
modifier mask `nmod`. -/
structure WaAction where
  type : Nat
  detail : Nat
  mod : Nat
  nmod : Nat
deriving Repr, DecidableEq

/-- A classified event, `EventDetail`: type, detail and modifier state. -/
structure EventDetail where
  type : Nat
  detail : Nat
  mod : Nat
deriving Repr, DecidableEq

/-- `eventmatch` (src/src/Event.cc, lines 1014..1036), translated
clause for clause:
`if (ed->type != act->type) return false;`
`if ((act->detail && ed->detail) ? (act->detail == ed->detail) : true)`,
then the two modifier loops over bits `0..12` plus the `MoveResizeMask`
checks, else `return false`. -/
def eventmatch (act : WaAction) (ed : EventDetail) : Bool :=
  if ed.type ≠ act.type then false
  else if (if act.detail ≠ 0 ∧ ed.detail ≠ 0 then act.detail = ed.detail else True) then
    ((List.range 13).all fun i => !act.mod.testBit i || ed.mod.testBit i) &&
    (!(act.mod &&& MoveResizeMask ≠ 0) || (ed.mod &&& MoveResizeMask ≠ 0)) &&
    ((List.range 13).all fun i => !act.nmod.testBit i || !ed.mod.testBit i) &&
    (!(act.nmod &&& MoveResizeMask ≠ 0) || !(ed.mod &&& MoveResizeMask ≠ 0))
  else false

/-- A `struct timeval` value: seconds and microseconds. -/
structure Timeval where
  sec : Nat
  usec : Nat
deriving Repr, DecidableEq

/-- The dispatcher's remembered last-click state
(`last_button`, `last_click_win`, `last_click` in EventHandler). -/
structure ClickState where
  last_button : Nat
  last_click_win : Nat
  last_click : Timeval
deriving Repr, DecidableEq

/-- The `(unsigned long)(click_time.tv_usec - last_click.tv_usec)` cast:
signed subtraction reduced modulo `2^64`. -/
def ulongCast (a b : Nat) : Int :=
  ((a : Int) - (b : Int)) % (2 ^ 64)

/-- The ButtonPress classification branch of `EventHandler::HandleEvent`
(src/src/Event.cc, lines 170..206): returns whether the press is promoted
to `DoubleClick`, and the updated remembered-click state.  `dc` is
`waimea->double_click` (milliseconds). -/
def classifyPress (dc : Nat) (st : ClickState) (win button : Nat)
    (now : Timeval) : Bool × ClickState :=
  if st.last_button = button ∧ st.last_click_win = win then
    if now.sec ≤ st.last_click.sec + 1 then
      if now.sec = st.last_click.sec ∧
         ulongCast now.usec st.last_click.usec < (dc * 1000 : Nat) then
        (true, { st with last_click_win := 0, last_button := button })
      else if ((1000000 - (st.last_click.usec : Int)) + (now.usec : Int)) % (2 ^ 64)
                < (dc * 1000 : Nat) then
        (true, { st with last_click_win := 0, last_button := button })
      else
        (false, { last_button := button, last_click_win := win, last_click := now })
    else
      (false, { last_button := button, last_click_win := win, last_click := now })
  else
    (false, { last_button := button, last_click_win := win, last_click := now })

/-- `x & MoveResizeMask` is non-zero exactly when bit 25 of `x` is set. -/
lemma and_mrm_ne_zero (x : Nat) : (x &&& MoveResizeMask ≠ 0) ↔ x.testBit 25 = true := by
  rw [MoveResizeMask, Nat.and_two_pow]
  rcases h : x.testBit 25 <;> simp [h]

/-- The first modifier loop of `eventmatch`: every required bit among
bits 0..12 must be present in the event state. -/
lemma all_required_iff (am em : Nat) :
    ((List.range 13).all fun i => !am.testBit i || em.testBit i) = true ↔
      (∀ i, i ≤ 12 → am.testBit i = true → em.testBit i = true) := by
  rw [List.all_eq_true]
  constructor
  · intro h i hi hbit
    have hx := h i (List.mem_range.mpr (by omega))
    rw [Bool.or_eq_true, Bool.not_eq_true'] at hx
    rcases hx with hx | hx
    · rw [hbit] at hx; cases hx
    · exact hx
  · intro h i hi
    rw [Bool.or_eq_true, Bool.not_eq_true']
    cases hb : am.testBit i
    · exact Or.inl rfl
    · exact Or.inr (h i (by have := List.mem_range.mp hi; omega) hb)

/-- The second modifier loop of `eventmatch`: no forbidden bit among
bits 0..12 may be present in the event state. -/
lemma all_forbidden_iff (am em : Nat) :
    ((List.range 13).all fun i => !am.testBit i || !em.testBit i) = true ↔
      (∀ i, i ≤ 12 → am.testBit i = true → em.testBit i = false) := by
  rw [List.all_eq_true]
  constructor
  · intro h i hi hbit
    have hx := h i (List.mem_range.mpr (by omega))
    rw [Bool.or_eq_true, Bool.not_eq_true', Bool.not_eq_true'] at hx
    rcases hx with hx | hx
    · rw [hbit] at hx; cases hx
    · exact hx
  · intro h i hi
    rw [Bool.or_eq_true, Bool.not_eq_true', Bool.not_eq_true']
    cases hb : am.testBit i
    · exact Or.inl rfl
    · exact Or.inr (h i (by have := List.mem_range.mp hi; omega) hb)

/-- The required-`MoveResizeMask` check of `eventmatch`. -/
lemma mrm_required_iff (am em : Nat) :
    (!decide (am &&& MoveResizeMask ≠ 0) || decide (em &&& MoveResizeMask ≠ 0)) = true ↔
      (am.testBit 25 = true → em.testBit 25 = true) := by
  rcases h1 : am.testBit 25 <;> rcases h2 : em.testBit 25 <;>
    simp [and_mrm_ne_zero, h1, h2]

/-- The forbidden-`MoveResizeMask` check of `eventmatch`. -/
lemma mrm_forbidden_iff (am em : Nat) :
    (!decide (am &&& MoveResizeMask ≠ 0) || !decide (em &&& MoveResizeMask ≠ 0)) = true ↔
      (am.testBit 25 = true → em.testBit 25 = false) := by
  rcases h1 : am.testBit 25 <;> rcases h2 : em.testBit 25 <;>
    simp [and_mrm_ne_zero, h1, h2]

/-- `eventmatch` unfolded into a logical characterisation of exactly the
checks the code performs. -/
lemma eventmatch_eq_true_iff (act : WaAction) (ed : EventDetail) :
    eventmatch act ed = true ↔
      (ed.type = act.type ∧
       (act.detail = 0 ∨ ed.detail = 0 ∨ act.detail = ed.detail) ∧
       (∀ i, i ≤ 12 → act.mod.testBit i = true → ed.mod.testBit i = true) ∧
       (act.mod.testBit 25 = true → ed.mod.testBit 25 = true) ∧
       (∀ i, i ≤ 12 → act.nmod.testBit i = true → ed.mod.testBit i = false) ∧
       (act.nmod.testBit 25 = true → ed.mod.testBit 25 = false)) := by
  rw [eventmatch]
  split_ifs with h1 h2 h3
  · simp only [Bool.false_eq_true, false_iff]
    intro hc
    exact h1 hc.1
  · have h1x : ed.type = act.type := not_not.mp h1
    simp only [Bool.and_eq_true, all_required_iff, all_forbidden_iff,
      mrm_required_iff, mrm_forbidden_iff]
    constructor
    · rintro ⟨⟨⟨hm, hm25⟩, hn⟩, hn25⟩
      exact ⟨h1x, Or.inr (Or.inr h3), hm, hm25, hn, hn25⟩
    · rintro ⟨-, -, hm, hm25, hn, hn25⟩
      exact ⟨⟨⟨hm, hm25⟩, hn⟩, hn25⟩
  · simp only [Bool.false_eq_true, false_iff]
    rintro ⟨-, hd, -⟩
    rcases hd with h | h | h
    · exact h2.1 h
    · exact h2.2 h
    · exact h3 h
  · have h1x : ed.type = act.type := not_not.mp h1
    rcases not_and_or.mp h2 with h | h
    · have hz : act.detail = 0 := not_not.mp h
      simp only [Bool.and_eq_true, all_required_iff, all_forbidden_iff,
        mrm_required_iff, mrm_forbidden_iff]
      constructor
      · rintro ⟨⟨⟨hm, hm25⟩, hn⟩, hn25⟩
        exact ⟨h1x, Or.inl hz, hm, hm25, hn, hn25⟩
      · rintro ⟨-, -, hm, hm25, hn, hn25⟩
        exact ⟨⟨⟨hm, hm25⟩, hn⟩, hn25⟩
    · have hz : ed.detail = 0 := not_not.mp h
      simp only [Bool.and_eq_true, all_required_iff, all_forbidden_iff,
        mrm_required_iff, mrm_forbidden_iff]
      constructor
      · rintro ⟨⟨⟨hm, hm25⟩, hn⟩, hn25⟩
        exact ⟨h1x, Or.inr (Or.inl hz), hm, hm25, hn, hn25⟩
      · rintro ⟨-, -, hm, hm25, hn, hn25⟩
        exact ⟨⟨⟨hm, hm25⟩, hn⟩, hn25⟩

/-- C1, counterexample: the claim states that a binding with a non-zero
detail code matches only events whose detail equals it; but `eventmatch`
treats an event detail of 0 as matching any binding detail (the check is
`(act->detail && ed->detail) ? (act->detail == ed->detail) : true`), so a
binding with detail 5 matches an event with detail 0. -/
theorem eventmatch_nonzero_detail_matches_zero :
    eventmatch ⟨4, 5, 0, 0⟩ ⟨4, 0, 0⟩ = true ∧
    (5 : Nat) ≠ 0 ∧ (0 : Nat) ≠ 5 := by decide

/-- C1, amended: for a binding whose required and forbidden modifier masks
only use the 13 X modifier bits and the `MoveResizeMask` pseudo-modifier
bit, `eventmatch` returns true iff the event kind equals the binding kind,
the binding detail is zero or the event detail is zero or they are equal,
every required modifier bit is present in the event state, and no
forbidden modifier bit is present. -/
theorem eventmatch_characterisation (act : WaAction) (ed : EventDetail)
    (hmod : ∀ i, act.mod.testBit i = true → i ≤ 12 ∨ i = 25)
    (hnmod : ∀ i, act.nmod.testBit i = true → i ≤ 12 ∨ i = 25) :
    eventmatch act ed = true ↔
      (ed.type = act.type ∧
       (act.detail = 0 ∨ ed.detail = 0 ∨ act.detail = ed.detail) ∧
       (∀ i, act.mod.testBit i = true → ed.mod.testBit i = true) ∧
       (∀ i, act.nmod.testBit i = true → ed.mod.testBit i = false)) := by
  rw [eventmatch_eq_true_iff]
  constructor
  · rintro ⟨ht, hd, hm, hm25, hn, hn25⟩
    refine ⟨ht, hd, ?_, ?_⟩
    · intro i hbit
      rcases hmod i hbit with h | h
      · exact hm i h hbit
      · subst h; exact hm25 hbit
    · intro i hbit
      rcases hnmod i hbit with h | h
      · exact hn i h hbit
      · subst h; exact hn25 hbit
  · rintro ⟨ht, hd, hm, hn⟩
    exact ⟨ht, hd, fun i _ => hm i, hm 25, fun i _ => hn i, hn 25⟩

theorem eventmatch_characterisation_witness :
    eventmatch ⟨4, 1, 0, 0⟩ ⟨4, 1, 7⟩ = true ↔
      ((4 : Nat) = 4 ∧
       ((1 : Nat) = 0 ∨ (1 : Nat) = 0 ∨ (1 : Nat) = 1) ∧
       (∀ i, (0 : Nat).testBit i = true → (7 : Nat).testBit i = true) ∧
       (∀ i, (0 : Nat).testBit i = true → (7 : Nat).testBit i = false)) :=
  eventmatch_characterisation ⟨4, 1, 0, 0⟩ ⟨4, 1, 7⟩
    (by intro i h; simp at h) (by intro i h; simp at h)

/-- C6: a second press of the same button on the same window whose
timestamp is less than the configured double-click interval after the
first (in either the same-second or the wraparound-across-second branch)
is promoted to a double-click and the remembered last-click window is
cleared; on the cleared state a third rapid press on the same window does
not pair (it merely records itself as the new last click); and any press
that is not promoted records its window and time as the new last click.
Hypotheses: `ResourceHandler` clamps `double_click` to at most 999 ms,
`timeval` microsecond fields are below 1000000, time is monotone, and X
window identifiers are non-zero. -/
theorem classifyPress_double_click (dc : Nat) (st : ClickState)
    (win button : Nat) (now : Timeval)
    (hdc : dc ≤ 999)
    (hu1 : st.last_click.usec < 1000000) (hu2 : now.usec < 1000000)
    (hwin : win ≠ 0)
    (hmono : st.last_click.sec < now.sec ∨
             (st.last_click.sec = now.sec ∧ st.last_click.usec ≤ now.usec))
    (hsame : st.last_button = button ∧ st.last_click_win = win)
    (hfast : now.sec * 1000000 + now.usec <
             st.last_click.sec * 1000000 + st.last_click.usec + dc * 1000) :
    classifyPress dc st win button now =
      (true, { st with last_click_win := 0, last_button := button }) ∧
    (∀ now2 : Timeval,
       classifyPress dc { st with last_click_win := 0, last_button := button }
           win button now2 =
         (false, { last_button := button, last_click_win := win,
                   last_click := now2 })) ∧
    (∀ (dc2 : Nat) (st2 : ClickState) (w2 b2 : Nat) (t2 : Timeval),
       (classifyPress dc2 st2 w2 b2 t2).1 = false →
       (classifyPress dc2 st2 w2 b2 t2).2 =
         { last_button := b2, last_click_win := w2, last_click := t2 }) := by
  refine ⟨?_, ?_, ?_⟩
  · rcases hmono with hlt | ⟨hsec, husec⟩
    · -- the wraparound-across-second branch: the press is in the second
      -- after the remembered one
      have hsec1 : now.sec = st.last_click.sec + 1 := by omega
      rw [classifyPress, if_pos hsame, if_pos (by omega)]
      rw [if_neg (by rintro ⟨h, -⟩; omega)]
      rw [if_pos ?hcond]
      case hcond =>
        have hrange : (0 : Int) ≤ 1000000 - (st.last_click.usec : Int) + (now.usec : Int) ∧
            1000000 - (st.last_click.usec : Int) + (now.usec : Int) < 2 ^ 64 := by
          constructor <;> [omega; omega]
        rw [Int.emod_eq_of_lt hrange.1 hrange.2]
        omega
    · -- the same-second branch
      rw [classifyPress, if_pos hsame, if_pos (by omega)]
      rw [if_pos ?hcond2]
      case hcond2 =>
        refine ⟨hsec.symm, ?_⟩
        rw [ulongCast, Int.emod_eq_of_lt (by omega) (by omega)]
        omega
  · intro now2
    rw [classifyPress, if_neg]
    rintro ⟨-, hw⟩
    exact hwin (by simpa using hw.symm)
  · intro dc2 st2 w2 b2 t2 h
    rw [classifyPress] at h ⊢
    split_ifs at h ⊢ <;> rfl

theorem classifyPress_double_click_witness :
    (classifyPress 300 ⟨1, 7, ⟨10, 500000⟩⟩ 7 1 ⟨10, 700000⟩ =
       (true, ⟨1, 0, ⟨10, 500000⟩⟩) ∧
     classifyPress 300 ⟨1, 0, ⟨10, 500000⟩⟩ 7 1 ⟨10, 900000⟩ =
       (false, ⟨1, 7, ⟨10, 900000⟩⟩)) ∧
    (classifyPress 300 ⟨1, 7, ⟨10, 999900⟩⟩ 7 1 ⟨11, 100⟩ =
       (true, ⟨1, 0, ⟨10, 999900⟩⟩)) := by
  have h1 := classifyPress_double_click 300 ⟨1, 7, ⟨10, 500000⟩⟩ 7 1 ⟨10, 700000⟩
    (by decide) (by decide) (by decide) (by decide)
    (Or.inr ⟨rfl, by decide⟩) ⟨rfl, rfl⟩ (by decide)
  have h2 := classifyPress_double_click 300 ⟨1, 7, ⟨10, 999900⟩⟩ 7 1 ⟨11, 100⟩
    (by decide) (by decide) (by decide) (by decide)
    (Or.inl (by decide)) ⟨rfl, rfl⟩ (by decide)
  exact ⟨⟨h1.1, h1.2.1 ⟨10, 900000⟩⟩, h2.1⟩

/-- The per-window fields `WaScreen::MoveViewportTo` reads and writes:
the sticky flag and the recorded geometry (`attrib`). -/
structure VpWindow where
  sticky : Bool
  x : Int
  y : Int
  width : Int
  height : Int
deriving Repr, DecidableEq

/-- The screen state `MoveViewportTo` acts on: current scroll offset and
the managed-window list (`wawindow_list`). -/
structure VpState where
  v_x : Int
  v_y : Int
  windows : List VpWindow
deriving Repr, DecidableEq

/-- The clamping prologue of `MoveViewportTo`:
`if (x > v_xmax) x = v_xmax; else if (x < 0) x = 0;`. -/
def clampVp (vmax x : Int) : Int :=
  if x > vmax then vmax else if x < 0 then 0 else x

/-- `WaScreen::MoveViewportTo` (src/src/Screen.cc, lines 1113..1155):
clamp the requested offset, compute `x_move = -(x - v_x)` and
`y_move = -(y - v_y)`, store the clamped offset, and shift every
non-sticky window in `wawindow_list` by `(x_move, y_move)` (the
redraw/`dontsend`/hint-resync branches choose how a window is redrawn but
assign `attrib.x`/`attrib.y` unconditionally; sticky windows are left
untouched). -/
def MoveViewportTo (v_xmax v_ymax : Int) (x y : Int) (st : VpState) : VpState :=
  let cx := clampVp v_xmax x
  let cy := clampVp v_ymax y
  let x_move := -(cx - st.v_x)
  let y_move := -(cy - st.v_y)
  { v_x := cx, v_y := cy,
    windows := st.windows.map fun w =>
      if w.sticky then w
      else { w with x := w.x + x_move, y := w.y + y_move } }

/-- C4: after `MoveViewportTo(x, y)` the scroll offset lies inside
`[0, v_xmax] × [0, v_ymax]` (the bounds are non-negative because the
virtual multiple is clamped to at least 1 by ResourceHandler, making
`v_xmax = (virtual multiple - 1) * physical size ≥ 0`); every non-sticky
window is shifted by exactly the negated clamped offset delta, and sticky
windows keep their position. -/
theorem MoveViewportTo_clamp_and_shift (v_xmax v_ymax x y : Int) (st : VpState)
    (hx : 0 ≤ v_xmax) (hy : 0 ≤ v_ymax) :
    (0 ≤ (MoveViewportTo v_xmax v_ymax x y st).v_x ∧
     (MoveViewportTo v_xmax v_ymax x y st).v_x ≤ v_xmax) ∧
    (0 ≤ (MoveViewportTo v_xmax v_ymax x y st).v_y ∧
     (MoveViewportTo v_xmax v_ymax x y st).v_y ≤ v_ymax) ∧
    (MoveViewportTo v_xmax v_ymax x y st).windows.length = st.windows.length ∧
    (∀ i (hi : i < st.windows.length),
       (st.windows[i].sticky = true →
          (MoveViewportTo v_xmax v_ymax x y st).windows[i]? =
            some st.windows[i]) ∧
       (st.windows[i].sticky = false →
          (MoveViewportTo v_xmax v_ymax x y st).windows[i]? =
            some { st.windows[i] with
                   x := st.windows[i].x - (clampVp v_xmax x - st.v_x),
                   y := st.windows[i].y - (clampVp v_ymax y - st.v_y) })) := by
  have hcl : ∀ vmax z : Int, 0 ≤ vmax → 0 ≤ clampVp vmax z ∧ clampVp vmax z ≤ vmax := by
    intro vmax z h
    rw [clampVp]
    split_ifs <;> omega
  refine ⟨⟨(hcl v_xmax x hx).1, (hcl v_xmax x hx).2⟩,
          ⟨(hcl v_ymax y hy).1, (hcl v_ymax y hy).2⟩, ?_, ?_⟩
  · simp [MoveViewportTo]
  · intro i hi
    constructor
    · intro hs
      simp only [MoveViewportTo, List.getElem?_map, List.getElem?_eq_getElem hi]
      simp [hs]
    · intro hs
      simp only [MoveViewportTo, List.getElem?_map, List.getElem?_eq_getElem hi]
      simp only [Option.map_some', hs, Bool.false_eq_true, if_false,
        Option.some.injEq]
      simp only [VpWindow.mk.injEq]
      refine ⟨trivial, by ring, by ring, trivial, trivial⟩

theorem MoveViewportTo_clamp_and_shift_witness :
    (0 ≤ (MoveViewportTo 1600 0 (-50) 70 ⟨0, 0, [⟨false, 3, 4, 10, 10⟩]⟩).v_x ∧
     (MoveViewportTo 1600 0 (-50) 70 ⟨0, 0, [⟨false, 3, 4, 10, 10⟩]⟩).v_x ≤ 1600) ∧
    (0 ≤ (MoveViewportTo 1600 0 (-50) 70 ⟨0, 0, [⟨false, 3, 4, 10, 10⟩]⟩).v_y ∧
     (MoveViewportTo 1600 0 (-50) 70 ⟨0, 0, [⟨false, 3, 4, 10, 10⟩]⟩).v_y ≤ 0) ∧
    (MoveViewportTo 1600 0 (-50) 70 ⟨0, 0, [⟨false, 3, 4, 10, 10⟩]⟩).windows.length =
      ([⟨false, 3, 4, 10, 10⟩] : List VpWindow).length ∧
    (∀ i (hi : i < ([⟨false, 3, 4, 10, 10⟩] : List VpWindow).length),
       (([⟨false, 3, 4, 10, 10⟩] : List VpWindow)[i].sticky = true →
          (MoveViewportTo 1600 0 (-50) 70 ⟨0, 0, [⟨false, 3, 4, 10, 10⟩]⟩).windows[i]? =
            some (([⟨false, 3, 4, 10, 10⟩] : List VpWindow)[i])) ∧
       (([⟨false, 3, 4, 10, 10⟩] : List VpWindow)[i].sticky = false →
          (MoveViewportTo 1600 0 (-50) 70 ⟨0, 0, [⟨false, 3, 4, 10, 10⟩]⟩).windows[i]? =
            some { ([⟨false, 3, 4, 10, 10⟩] : List VpWindow)[i] with
                   x := ([⟨false, 3, 4, 10, 10⟩] : List VpWindow)[i].x -
                        (clampVp 1600 (-50) - 0),
                   y := ([⟨false, 3, 4, 10, 10⟩] : List VpWindow)[i].y -
                        (clampVp 0 70 - 0) })) :=
  MoveViewportTo_clamp_and_shift 1600 0 (-50) 70 ⟨0, 0, [⟨false, 3, 4, 10, 10⟩]⟩
    (by norm_num) (by norm_num)

/-- C9, counterexample: the claim says the window at (100,100) ends at
(-700,100) after `MoveViewportTo(900, 0)` from offset (0,0); the code
shifts every non-sticky window by the full clamped delta 900, so the
window ends at (-800,100), not (-700,100). -/
theorem MoveViewportTo_scenario_not_700 :
    (MoveViewportTo 1600 0 900 0
        ⟨0, 0, [⟨false, 100, 100, 200, 150⟩]⟩).windows =
      [⟨false, -800, 100, 200, 150⟩] ∧
    ((-800 : Int), (100 : Int)) ≠ ((-700 : Int), (100 : Int)) := by
  constructor
  · decide
  · decide

/-- C9, amended: on an 800x600 screen with a 3x1 virtual multiple
(`v_xmax = 1600`, `v_ymax = 0`) and offset (0,0), `MoveViewportTo(900, 0)`
sets the offset to (900,0) without clamping (since 900 ≤ 1600) and the
non-sticky window recorded at (100,100) is shifted by the full delta 900,
ending at (-800,100). -/
theorem MoveViewportTo_scenario_900 :
    MoveViewportTo 1600 0 900 0 ⟨0, 0, [⟨false, 100, 100, 200, 150⟩]⟩ =
      ⟨900, 0, [⟨false, -800, 100, 200, 150⟩]⟩ := by
  decide

/-- WM_NORMAL_HINTS-derived size constraints (`SizeStruct size`). -/
structure SizeHints where
  min_width : Int
  max_width : Int
  base_width : Int
  width_inc : Int
  min_height : Int
  max_height : Int
  base_height : Int
  height_inc : Int
deriving Repr, DecidableEq

/-- The window flags read by `IncSizeCheck` and `_Maximize`. -/
structure WinFlags where
  shaded : Bool
  maximized : Bool
  title : Bool
  border : Bool
  handle : Bool
deriving Repr, DecidableEq

/-- A geometry record (`attrib`). -/
structure Geometry where
  x : Int
  y : Int
  width : Int
  height : Int
deriving Repr, DecidableEq

/-- The saved pre-maximize data (`restore_max`): geometry offsets plus the
virtual position at maximize time (`misc0`, `misc1`). -/
structure RestoreMax where
  x : Int
  y : Int
  width : Int
  height : Int
  misc0 : Int
  misc1 : Int
deriving Repr, DecidableEq

/-- The `WaWindow` fields read and written by `IncSizeCheck`, `Shade` and
`_Maximize`. -/
structure WaWindowState where
  attrib : Geometry
  flags : WinFlags
  restore_shade : Int
  restore_max : RestoreMax
  title_w : Int
  handle_w : Int
  border_w : Int
  size : SizeHints
deriving Repr, DecidableEq

/-- The outputs of `WaWindow::IncSizeCheck`: the returned flag, the
`*n_w`/`*n_h` out-parameters, and the `flags.shaded`/`restore_shade`
fields it may write. -/
structure IncResult where
  resize : Bool
  n_w : Int
  n_h : Int
  shaded : Bool
  restore_shade : Int
deriving Repr, DecidableEq

/-- `WaWindow::IncSizeCheck` (src/src/Window.cc, lines 1111..1188),
translated branch for branch.  C `%` on `int` is `Int.tmod`. -/
def IncSizeCheck (w : WaWindowState) (width height : Int) : IncResult :=
  let acceptW :=
    (width ≥ w.attrib.width + w.size.width_inc ∨
     width ≤ w.attrib.width - w.size.width_inc ∨
     w.attrib.width = width) ∧
    (width ≥ w.size.min_width ∧ width ≤ w.size.max_width)
  let resizeW : Bool := acceptW
  let n_w : Int :=
    if acceptW then
      if w.size.width_inc = 1 then width
      else width - Int.tmod (width - w.size.base_width) w.size.width_inc
    else w.attrib.width
  if height ≤ -(w.handle_w + w.border_w * 2) ∧ w.title_w ≠ 0 then
    { resize := resizeW, n_w := n_w,
      n_h := -(w.handle_w + w.border_w) -
             (if w.handle_w ≠ 0 then w.border_w else 0),
      shaded := true,
      restore_shade :=
        if w.flags.shaded then w.restore_shade else w.attrib.height }
  else if height ≥ w.attrib.height + w.size.height_inc ∨
          height ≤ w.attrib.height - w.size.height_inc ∨
          w.attrib.height = height then
    if height < 1 ∧ w.size.min_height ≤ 1 ∧ w.title_w ≠ 0 then
      { resize := true, n_w := n_w,
        n_h := if w.size.height_inc = 1 then height
               else height - Int.tmod (height - w.size.base_height) w.size.height_inc,
        shaded := true,
        restore_shade :=
          if w.flags.shaded then w.restore_shade else w.attrib.height }
    else if height ≥ w.size.min_height ∧ height ≤ w.size.max_height then
      { resize := true, n_w := n_w,
        n_h := if w.size.height_inc = 1 then height
               else height - Int.tmod (height - w.size.base_height) w.size.height_inc,
        shaded := false,
        restore_shade := w.restore_shade }
    else
      { resize := resizeW, n_w := n_w, n_h := w.attrib.height,
        shaded := w.flags.shaded, restore_shade := w.restore_shade }
  else
    { resize := resizeW, n_w := n_w, n_h := w.attrib.height,
      shaded := w.flags.shaded, restore_shade := w.restore_shade }

/-- `WaWindow::Shade` (src/src/Window.cc, lines 2222..2238): call
`IncSizeCheck(attrib.width, -(handle_w + border_w * 2))`; the
flag/restore side effects happen inside the call, and the returned
geometry is applied only when the call returns true. -/
def Shade (w : WaWindowState) : WaWindowState :=
  let r := IncSizeCheck w w.attrib.width (-(w.handle_w + w.border_w * 2))
  let w1 := { w with flags := { w.flags with shaded := r.shaded },
                     restore_shade := r.restore_shade }
  if r.resize then
    { w1 with attrib := { w1.attrib with width := r.n_w, height := r.n_h } }
  else w1

/-- `WaWindow::_Maximize` (src/src/Window.cc, lines 1939..1991): compute
the decorated size filling the work-area, record the pre-maximize data,
and apply the new geometry if `IncSizeCheck` accepts it.  `x`/`y` are the
requested virtual position (ignored when negative), `v_x`/`v_y` the
screen's current scroll offset. -/
def Maximize (w : WaWindowState) (x y : Int)
    (workx worky workw workh : Int) (v_x v_y : Int) : WaWindowState :=
  if w.flags.maximized then w
  else
    let new_width := workw - (if w.flags.border then w.border_w * 2 else 0)
    let new_height := workh - (if w.flags.border then w.border_w * 2 else 0) -
      w.title_w - w.handle_w - (if w.flags.title then w.border_w else 0) -
      (if w.flags.handle then w.border_w else 0)
    let rest_x := w.attrib.x
    let rest_y := w.attrib.y
    let rmw := w.attrib.width
    let rmh := if w.flags.shaded then w.restore_shade else w.attrib.height
    let rs1 := if w.flags.shaded then new_height else w.restore_shade
    let nh1 := if w.flags.shaded then w.attrib.height else new_height
    let w1 := { w with restore_shade := rs1 }
    let r := IncSizeCheck w1 new_width nh1
    if r.resize then
      let usepos := x ≥ 0 ∧ y ≥ 0
      let ax1 := if usepos then x - v_x else workx
      let ay1 := if usepos then y - v_y else worky
      { w1 with
        attrib := { x := ax1 + w.border_w,
                    y := ay1 + w.title_w + w.border_w +
                         (if w.flags.title then w.border_w else 0),
                    width := r.n_w, height := r.n_h },
        flags := { w.flags with maximized := true, shaded := r.shaded },
        restore_shade := r.restore_shade,
        restore_max := { x := rest_x - workx, y := rest_y - worky,
                         width := rmw, height := rmh,
                         misc0 := if usepos then x else v_x + workx,
                         misc1 := if usepos then y else v_y + worky } }
    else
      { w1 with
        flags := { w.flags with shaded := r.shaded },
        restore_shade := r.restore_shade,
        restore_max := { w.restore_max with width := rmw, height := rmh } }

/-- When both increments are 1, the candidate is inside min/max bounds,
the window is not shaded, and the candidate height is at least 1 (with
non-negative decoration sizes), `IncSizeCheck` accepts and returns the
candidate unchanged. -/
lemma IncSizeCheck_accept_inc_one (w : WaWindowState) (width height : Int)
    (hwi : w.size.width_inc = 1) (hhi : w.size.height_inc = 1)
    (hw1 : w.size.min_width ≤ width) (hw2 : width ≤ w.size.max_width)
    (hh1 : w.size.min_height ≤ height) (hh2 : height ≤ w.size.max_height)
    (hpos : 1 ≤ height) (hhw : 0 ≤ w.handle_w) (hbw : 0 ≤ w.border_w) :
    IncSizeCheck w width height =
      { resize := true, n_w := width, n_h := height,
        shaded := false, restore_shade := w.restore_shade } := by
  rw [IncSizeCheck]
  have hacc : (width ≥ w.attrib.width + w.size.width_inc ∨
      width ≤ w.attrib.width - w.size.width_inc ∨
      w.attrib.width = width) ∧
      (width ≥ w.size.min_width ∧ width ≤ w.size.max_width) := by
    refine ⟨?_, by omega⟩
    rw [hwi]; omega
  rw [if_neg (by rintro ⟨h, -⟩; omega)]
  rw [if_pos (by rw [hhi]; omega)]
  rw [if_neg (by rintro ⟨h, -⟩; omega)]
  rw [if_pos (by omega)]
  simp only [hacc, hwi, hhi, if_pos, if_true]
  simp [hacc]
  omega

/-- When the candidate width passes the increment and bound checks, the
height candidate is the current height, the window is not shaded and the
height bounds hold, `IncSizeCheck` accepts and snaps the width down to
the increment boundary from the base size. -/
lemma IncSizeCheck_width_snap (w : WaWindowState) (width : Int)
    (haccI : width ≥ w.attrib.width + w.size.width_inc ∨
             width ≤ w.attrib.width - w.size.width_inc ∨
             w.attrib.width = width)
    (hb1 : w.size.min_width ≤ width) (hb2 : width ≤ w.size.max_width)
    (hsh : w.flags.shaded = false) (hpos : 1 ≤ w.attrib.height)
    (hhb1 : w.size.min_height ≤ w.attrib.height)
    (hhb2 : w.attrib.height ≤ w.size.max_height)
    (hhinc : w.size.height_inc = 1)
    (hhw : 0 ≤ w.handle_w) (hbw : 0 ≤ w.border_w) :
    IncSizeCheck w width w.attrib.height =
      { resize := true,
        n_w := if w.size.width_inc = 1 then width
               else width - Int.tmod (width - w.size.base_width) w.size.width_inc,
        n_h := w.attrib.height, shaded := false,
        restore_shade := w.restore_shade } := by
  rw [IncSizeCheck]
  have hacc : (width ≥ w.attrib.width + w.size.width_inc ∨
      width ≤ w.attrib.width - w.size.width_inc ∨
      w.attrib.width = width) ∧
      (width ≥ w.size.min_width ∧ width ≤ w.size.max_width) :=
    ⟨haccI, by omega⟩
  rw [if_neg (by rintro ⟨h, -⟩; omega)]
  rw [if_pos (Or.inr (Or.inr rfl))]
  rw [if_neg (by rintro ⟨h, -⟩; omega)]
  rw [if_pos (by omega)]
  simp [hacc, hhinc]

/-- C8: with minimum width 50, width increment 10 and base width 50, an
accepted width request of 57 is snapped to 50 = 50 + 10k (k = 0), and
requesting the accepted width 50 again on the window that now has width
50 is accepted and returns 50 again. -/
theorem IncSizeCheck_snap_idempotent (w : WaWindowState)
    (hmin : w.size.min_width = 50) (hinc : w.size.width_inc = 10)
    (hbase : w.size.base_width = 50) (hmax : 57 ≤ w.size.max_width)
    (hacc : 57 ≥ w.attrib.width + 10 ∨ 57 ≤ w.attrib.width - 10 ∨
            w.attrib.width = 57)
    (hsh : w.flags.shaded = false) (hpos : 1 ≤ w.attrib.height)
    (hhb1 : w.size.min_height ≤ w.attrib.height)
    (hhb2 : w.attrib.height ≤ w.size.max_height)
    (hhinc : w.size.height_inc = 1)
    (hhw : 0 ≤ w.handle_w) (hbw : 0 ≤ w.border_w) :
    ((IncSizeCheck w 57 w.attrib.height).resize = true ∧
     (IncSizeCheck w 57 w.attrib.height).n_w = 50 ∧
     (∃ k : ℤ, (IncSizeCheck w 57 w.attrib.height).n_w = 50 + 10 * k)) ∧
    (∀ w2 : WaWindowState, w2.size = w.size → w2.attrib.width = 50 →
       w2.flags.shaded = false → 1 ≤ w2.attrib.height →
       w2.size.min_height ≤ w2.attrib.height →
       w2.attrib.height ≤ w2.size.max_height →
       0 ≤ w2.handle_w → 0 ≤ w2.border_w →
       (IncSizeCheck w2 50 w2.attrib.height).resize = true ∧
       (IncSizeCheck w2 50 w2.attrib.height).n_w = 50) := by
  have h1 := IncSizeCheck_width_snap w 57 (by omega) (by omega) (by omega)
    hsh hpos hhb1 hhb2 hhinc hhw hbw
  constructor
  · rw [h1]
    refine ⟨rfl, ?_, ⟨0, ?_⟩⟩ <;>
      · simp only [hinc, hbase]
        decide
  · intro w2 hsz hw50 hsh2 hpos2 hb12 hb22 hhw2 hbw2
    have h2 := IncSizeCheck_width_snap w2 50
      (Or.inr (Or.inr hw50)) (by rw [hsz]; omega) (by rw [hsz]; omega)
      hsh2 hpos2 hb12 hb22 (by rw [hsz]; exact hhinc) hhw2 hbw2
    rw [h2]
    refine ⟨rfl, ?_⟩
    rw [hsz]
    simp only [hinc, hbase]
    decide

theorem IncSizeCheck_snap_idempotent_witness :
    ((IncSizeCheck ⟨⟨0, 0, 40, 100⟩, ⟨false, false, true, true, false⟩, 0,
        ⟨0, 0, 0, 0, 0, 0⟩, 20, 0, 2, ⟨50, 1000, 50, 10, 1, 1000, 0, 1⟩⟩
        57 100).resize = true ∧
     (IncSizeCheck ⟨⟨0, 0, 40, 100⟩, ⟨false, false, true, true, false⟩, 0,
        ⟨0, 0, 0, 0, 0, 0⟩, 20, 0, 2, ⟨50, 1000, 50, 10, 1, 1000, 0, 1⟩⟩
        57 100).n_w = 50) := by
  have h := IncSizeCheck_snap_idempotent
    ⟨⟨0, 0, 40, 100⟩, ⟨false, false, true, true, false⟩, 0,
     ⟨0, 0, 0, 0, 0, 0⟩, 20, 0, 2, ⟨50, 1000, 50, 10, 1, 1000, 0, 1⟩⟩
    rfl rfl rfl (by norm_num) (Or.inl (by norm_num)) rfl (by norm_num)
    (by norm_num) (by norm_num) rfl (by norm_num) (by norm_num)
  exact ⟨h.1.1, h.1.2.1⟩

/-- C10: shading an already-shaded window (a call of `IncSizeCheck` with
a height candidate at or below `-(handle_w + 2*border_w)`, which is what
`Shade` passes) leaves the shaded flag set, does not overwrite
`restore_shade`, and returns the same shaded height
`-(handle_w + border_w)` minus one further `border_w` when a handle bar
is present; and `IncSizeCheck` writes `restore_shade` only on the
transition from unshaded to shaded. -/
theorem IncSizeCheck_shade_idempotent (w : WaWindowState)
    (hsh : w.flags.shaded = true) (ht : w.title_w ≠ 0) :
    (∀ h : Int, h ≤ -(w.handle_w + w.border_w * 2) →
       (IncSizeCheck w w.attrib.width h).shaded = true ∧
       (IncSizeCheck w w.attrib.width h).restore_shade = w.restore_shade ∧
       (IncSizeCheck w w.attrib.width h).n_h =
         -(w.handle_w + w.border_w) -
         (if w.handle_w ≠ 0 then w.border_w else 0)) ∧
    ((Shade w).flags.shaded = true ∧
     (Shade w).restore_shade = w.restore_shade) ∧
    (∀ (w2 : WaWindowState) (wq hq : Int),
       (IncSizeCheck w2 wq hq).restore_shade ≠ w2.restore_shade →
       w2.flags.shaded = false ∧ (IncSizeCheck w2 wq hq).shaded = true) := by
  have hmain : ∀ h : Int, h ≤ -(w.handle_w + w.border_w * 2) →
      (IncSizeCheck w w.attrib.width h).shaded = true ∧
      (IncSizeCheck w w.attrib.width h).restore_shade = w.restore_shade ∧
      (IncSizeCheck w w.attrib.width h).n_h =
        -(w.handle_w + w.border_w) -
        (if w.handle_w ≠ 0 then w.border_w else 0) := by
    intro h hle
    rw [IncSizeCheck, if_pos ⟨hle, ht⟩]
    exact ⟨rfl, by simp [hsh], rfl⟩
  refine ⟨hmain, ?_, ?_⟩
  · have hs := hmain (-(w.handle_w + w.border_w * 2)) le_rfl
    rw [Shade]
    set r := IncSizeCheck w w.attrib.width (-(w.handle_w + w.border_w * 2)) with hrdef
    by_cases hz : r.resize = true
    · simp only [hz, if_true]
      exact ⟨hs.1, hs.2.1⟩
    · rw [Bool.not_eq_true] at hz
      simp only [hz, Bool.false_eq_true, if_false]
      exact ⟨hs.1, hs.2.1⟩
  · intro w2 wq hq hne
    rcases hs2 : w2.flags.shaded
    · refine ⟨rfl, ?_⟩
      rw [IncSizeCheck] at hne ⊢
      split_ifs at hne ⊢ <;> first | rfl | simp at hne
    · exfalso
      rw [IncSizeCheck] at hne
      split_ifs at hne <;> simp [hs2] at hne

theorem IncSizeCheck_shade_idempotent_witness :
    ((IncSizeCheck ⟨⟨0, 0, 300, -24⟩, ⟨true, false, true, true, false⟩, 200,
        ⟨0, 0, 0, 0, 0, 0⟩, 20, 0, 2, ⟨1, 1000, 0, 1, 1, 1000, 0, 1⟩⟩
        300 (-4)).shaded = true ∧
     (IncSizeCheck ⟨⟨0, 0, 300, -24⟩, ⟨true, false, true, true, false⟩, 200,
        ⟨0, 0, 0, 0, 0, 0⟩, 20, 0, 2, ⟨1, 1000, 0, 1, 1, 1000, 0, 1⟩⟩
        300 (-4)).restore_shade = 200) ∧
    ((Shade ⟨⟨0, 0, 300, -24⟩, ⟨true, false, true, true, false⟩, 200,
        ⟨0, 0, 0, 0, 0, 0⟩, 20, 0, 2, ⟨1, 1000, 0, 1, 1, 1000, 0, 1⟩⟩).flags.shaded = true ∧
     (Shade ⟨⟨0, 0, 300, -24⟩, ⟨true, false, true, true, false⟩, 200,
        ⟨0, 0, 0, 0, 0, 0⟩, 20, 0, 2, ⟨1, 1000, 0, 1, 1, 1000, 0, 1⟩⟩).restore_shade = 200) := by
  have h := IncSizeCheck_shade_idempotent
    ⟨⟨0, 0, 300, -24⟩, ⟨true, false, true, true, false⟩, 200,
     ⟨0, 0, 0, 0, 0, 0⟩, 20, 0, 2, ⟨1, 1000, 0, 1, 1, 1000, 0, 1⟩⟩
    rfl (by norm_num)
  have h4 := h.1 (-4) (by norm_num)
  exact ⟨⟨h4.1, h4.2.1⟩, h.2.1⟩

/-- C7: maximizing a not-yet-maximized, unshaded window with a border and
title bar but no handle bar applies a geometry that exactly fills the
work-area: position `(workx + border, worky + title + 2*border)`, width
`workw - 2*border`, height `workh - 2*border - title - border` (with
work-area (0,0,800,600), border 2, title 20 this is x=2, y=24, width=796,
height=574). -/
theorem Maximize_fills_workarea (w : WaWindowState)
    (workx worky workw workh v_x v_y : Int)
    (hmax : w.flags.maximized = false) (hsh : w.flags.shaded = false)
    (hb : w.flags.border = true) (htl : w.flags.title = true)
    (hhd : w.flags.handle = false) (hhw : w.handle_w = 0)
    (hbw : 0 ≤ w.border_w)
    (hwi : w.size.width_inc = 1) (hhi : w.size.height_inc = 1)
    (hminh : 1 ≤ w.size.min_height)
    (hw1 : w.size.min_width ≤ workw - w.border_w * 2)
    (hw2 : workw - w.border_w * 2 ≤ w.size.max_width)
    (hh1 : w.size.min_height ≤ workh - w.border_w * 2 - w.title_w - w.border_w)
    (hh2 : workh - w.border_w * 2 - w.title_w - w.border_w ≤ w.size.max_height) :
    (Maximize w (-1) (-1) workx worky workw workh v_x v_y).attrib.x =
      workx + w.border_w ∧
    (Maximize w (-1) (-1) workx worky workw workh v_x v_y).attrib.y =
      worky + w.title_w + w.border_w * 2 ∧
    (Maximize w (-1) (-1) workx worky workw workh v_x v_y).attrib.width =
      workw - w.border_w * 2 ∧
    (Maximize w (-1) (-1) workx worky workw workh v_x v_y).attrib.height =
      workh - w.border_w * 2 - w.title_w - w.border_w ∧
    (Maximize w (-1) (-1) workx worky workw workh v_x v_y).flags.maximized = true := by
  have hr : IncSizeCheck { w with restore_shade := w.restore_shade }
      (workw - w.border_w * 2)
      (workh - w.border_w * 2 - w.title_w - w.handle_w - w.border_w - 0) =
      { resize := true, n_w := workw - w.border_w * 2,
        n_h := workh - w.border_w * 2 - w.title_w - w.handle_w - w.border_w - 0,
        shaded := false, restore_shade := w.restore_shade } := by
    apply IncSizeCheck_accept_inc_one <;> simp [hwi, hhi, hhw] <;> omega
  rw [Maximize, if_neg (by rw [hmax]; exact Bool.false_ne_true)]
  simp only [hsh, hb, htl, hhd, if_true, if_false, Bool.false_eq_true]
  rw [hr]
  have husepos : ¬((-1 : Int) ≥ 0 ∧ (-1 : Int) ≥ 0) := by norm_num
  simp only [if_pos, if_neg husepos, ge_iff_le]
  refine ⟨?_, ?_, ?_, ?_, ?_⟩
  · trivial
  · show worky + w.title_w + w.border_w + w.border_w =
      worky + w.title_w + w.border_w * 2
    ring
  · trivial
  · show workh - w.border_w * 2 - w.title_w - w.handle_w - w.border_w - 0 =
      workh - w.border_w * 2 - w.title_w - w.border_w
    rw [hhw]; ring
  · trivial

theorem Maximize_fills_workarea_witness :
    (Maximize ⟨⟨50, 60, 300, 200⟩, ⟨false, false, true, true, false⟩, 0,
        ⟨0, 0, 0, 0, 0, 0⟩, 20, 0, 2, ⟨1, 5000, 0, 1, 1, 5000, 0, 1⟩⟩
        (-1) (-1) 0 0 800 600 0 0).attrib.x = 2 ∧
    (Maximize ⟨⟨50, 60, 300, 200⟩, ⟨false, false, true, true, false⟩, 0,
        ⟨0, 0, 0, 0, 0, 0⟩, 20, 0, 2, ⟨1, 5000, 0, 1, 1, 5000, 0, 1⟩⟩
        (-1) (-1) 0 0 800 600 0 0).attrib.y = 24 ∧
    (Maximize ⟨⟨50, 60, 300, 200⟩, ⟨false, false, true, true, false⟩, 0,
        ⟨0, 0, 0, 0, 0, 0⟩, 20, 0, 2, ⟨1, 5000, 0, 1, 1, 5000, 0, 1⟩⟩
        (-1) (-1) 0 0 800 600 0 0).attrib.width = 796 ∧
    (Maximize ⟨⟨50, 60, 300, 200⟩, ⟨false, false, true, true, false⟩, 0,
        ⟨0, 0, 0, 0, 0, 0⟩, 20, 0, 2, ⟨1, 5000, 0, 1, 1, 5000, 0, 1⟩⟩
        (-1) (-1) 0 0 800 600 0 0).attrib.height = 574 ∧
    (Maximize ⟨⟨50, 60, 300, 200⟩, ⟨false, false, true, true, false⟩, 0,
        ⟨0, 0, 0, 0, 0, 0⟩, 20, 0, 2, ⟨1, 5000, 0, 1, 1, 5000, 0, 1⟩⟩
        (-1) (-1) 0 0 800 600 0 0).flags.maximized = true := by
  have h := Maximize_fills_workarea
    ⟨⟨50, 60, 300, 200⟩, ⟨false, false, true, true, false⟩, 0,
     ⟨0, 0, 0, 0, 0, 0⟩, 20, 0, 2, ⟨1, 5000, 0, 1, 1, 5000, 0, 1⟩⟩
    0 0 800 600 0 0 rfl rfl rfl rfl rfl rfl (by norm_num) rfl rfl
    (by norm_num) (by norm_num) (by norm_num) (by norm_num) (by norm_num)
  norm_num at h
  exact h

/-- One of the three per-screen stacking tiers
(`aot_stacking_list`, `stacking_list`, `aab_stacking_list`). -/
inductive Layer
  | aot
  | norm
  | aab
deriving Repr, DecidableEq

/-- The three per-screen stacking lists of frame handles, fronts first. -/
structure StackLists where
  aot : List Nat
  norm : List Nat
  aab : List Nat
deriving Repr, DecidableEq

/-- `std::list<Window>::remove`: delete every occurrence of a value. -/
def removeAll (v : Nat) (l : List Nat) : List Nat := l.filter (fun x => x ≠ v)

/-- `push_front` on the list of the given layer. -/
def pushLayerFront (L : Layer) (v : Nat) (st : StackLists) : StackLists :=
  match L with
  | .aot => { st with aot := v :: st.aot }
  | .norm => { st with norm := v :: st.norm }
  | .aab => { st with aab := v :: st.aab }

/-- The body of the transient loop of `WaScreen::RaiseWindow`: remove the
transient frame from all three stacking lists and push it onto the front
of the list of the layer the raised owner is in. -/
def moveTransientFront (L : Layer) (fid : Nat) (st : StackLists) : StackLists :=
  pushLayerFront L fid
    { aot := removeAll fid st.aot, norm := removeAll fid st.norm,
      aab := removeAll fid st.aab }

/-- The transient loop of `WaScreen::RaiseWindow` (src/src/Screen.cc,
lines 435..450 and its copies for the other two layers), with the exact
iterator behaviour of the source: a live transient is moved and the
iterator advances; a stale transient is erased, the iterator is reset to
`begin()` and then incremented by the `for` loop, so processing resumes
at position 1.  `resolve` is `FindWin(_, WindowType)` composed with
`->frame->id` (`none` for a stale handle). -/
def raiseTransientsFrom (resolve : Nat → Option Nat) (L : Layer)
    (ts : List Nat) (p : Nat) (st : StackLists) : List Nat × StackLists :=
  if h : p < ts.length then
    match resolve ts[p] with
    | some fid => raiseTransientsFrom resolve L ts (p + 1) (moveTransientFront L fid st)
    | none => raiseTransientsFrom resolve L (ts.eraseIdx p) 1 st
  else (ts, st)
termination_by (ts.length, ts.length - p)
decreasing_by
  · apply Prod.Lex.right
    omega
  · apply Prod.Lex.left
    rw [List.length_eraseIdx_of_lt h]
    omega

/-- `WaScreen::RaiseWindow` (src/src/Screen.cc, lines 422..524): find the
layer list containing `win`, move `win` to its front, then run the
transient loop pushing each live transient frame onto the front of that
same list.  `findTrans` models `FindWin(win, FrameType)`: `some ts` when
the frame resolves to a managed window with transient list `ts`, `none`
otherwise.  The final `RestackWindows` call only transmits the resulting
order to the display and changes none of the lists. -/
def RaiseWindow (resolve : Nat → Option Nat) (findTrans : Option (List Nat))
    (win : Nat) (st : StackLists) : StackLists × Option (List Nat) :=
  if win ∈ st.aot then
    let st1 := { st with aot := win :: st.aot.erase win }
    match findTrans with
    | some ts =>
      let r := raiseTransientsFrom resolve .aot ts 0 st1
      (r.2, some r.1)
    | none => (st1, none)
  else if win ∈ st.norm then
    let st1 := { st with norm := win :: st.norm.erase win }
    match findTrans with
    | some ts =>
      let r := raiseTransientsFrom resolve .norm ts 0 st1
      (r.2, some r.1)
    | none => (st1, none)
  else if win ∈ st.aab then
    let st1 := { st with aab := win :: st.aab.erase win }
    match findTrans with
    | some ts =>
      let r := raiseTransientsFrom resolve .aab ts 0 st1
      (r.2, some r.1)
    | none => (st1, none)
  else (st, findTrans)

lemma removeAll_cons_ne (v a : Nat) (l : List Nat) (h : a ≠ v) :
    removeAll v (a :: l) = a :: removeAll v l := by
  simp [removeAll, h]

/-- Unfolding of the transient loop for a two-element transient list that
resolves fully: both frames are moved, in list order. -/
lemma raiseTransientsFrom_two (resolve : Nat → Option Nat) (L : Layer)
    (t1 t2 f1 f2 : Nat) (st : StackLists)
    (h1 : resolve t1 = some f1) (h2 : resolve t2 = some f2) :
    raiseTransientsFrom resolve L [t1, t2] 0 st =
      ([t1, t2], moveTransientFront L f2 (moveTransientFront L f1 st)) := by
  rw [raiseTransientsFrom]
  norm_num [h1]
  rw [raiseTransientsFrom]
  norm_num [h2]
  rw [raiseTransientsFrom]
  simp

/-- C3, counterexample: the claim says each transient frame is moved to
the front of its own layer list.  Here the owner 1 is in the normal
layer while its transient's frame 4 sits in the always-on-top list;
after `RaiseWindow`, frame 4 has been taken out of the always-on-top
list and pushed onto the front of the owner's normal list instead of the
front of its own list. -/
theorem RaiseWindow_transient_leaves_own_layer :
    (RaiseWindow (fun t => if t = 3 then some 4 else none) (some [3]) 1
        ⟨[4], [1, 2], []⟩).1.aot = [] ∧
    (RaiseWindow (fun t => if t = 3 then some 4 else none) (some [3]) 1
        ⟨[4], [1, 2], []⟩).1.norm = [4, 1, 2] ∧
    (4 : Nat) ∈ ([4] : List Nat) := by
  have h : RaiseWindow (fun t => if t = 3 then some 4 else none) (some [3]) 1
      ⟨[4], [1, 2], []⟩ = (⟨[], [4, 1, 2], []⟩, some [3]) := by
    rw [RaiseWindow]
    simp only [List.mem_cons, List.mem_singleton]
    norm_num
    rw [raiseTransientsFrom]
    simp [removeAll, moveTransientFront, pushLayerFront, List.erase]
    rw [raiseTransientsFrom]
    simp [removeAll, moveTransientFront, pushLayerFront]
  rw [h]
  exact ⟨rfl, rfl, by simp⟩

/-- C3, amended: raising a window `win` found in the normal layer moves
it to the front of that list, and each live transient frame is moved to
the front of the owner's layer list (removed from whichever list held
it), processed in transient-list order so that the last listed transient
ends up topmost; consequently both transient frames precede `win` and
every window that was below `win` in its layer before the raise. -/
theorem RaiseWindow_owner_layer (resolve : Nat → Option Nat) (st : StackLists)
    (win t1 t2 f1 f2 : Nat)
    (hnaot : win ∉ st.aot) (hin : win ∈ st.norm)
    (h1 : resolve t1 = some f1) (h2 : resolve t2 = some f2)
    (hff : f1 ≠ f2) (hw1 : win ≠ f1) (hw2 : win ≠ f2) :
    (RaiseWindow resolve (some [t1, t2]) win st).1 =
      { aot := removeAll f2 (removeAll f1 st.aot),
        norm := f2 :: f1 :: win ::
          removeAll f2 (removeAll f1 (st.norm.erase win)),
        aab := removeAll f2 (removeAll f1 st.aab) } ∧
    (∀ x ∈ st.norm.erase win, x ≠ f1 → x ≠ f2 →
       x ∈ removeAll f2 (removeAll f1 (st.norm.erase win))) := by
  constructor
  · rw [RaiseWindow, if_neg hnaot, if_pos hin]
    simp only [raiseTransientsFrom_two resolve .norm t1 t2 f1 f2 _ h1 h2]
    simp only [moveTransientFront, pushLayerFront]
    simp only [StackLists.mk.injEq]
    refine ⟨trivial, ?_, trivial⟩
    rw [removeAll_cons_ne f1 win _ hw1, removeAll_cons_ne f2 f1 _ hff,
        removeAll_cons_ne f2 win _ hw2]
  · intro x hx hx1 hx2
    simp only [removeAll, List.mem_filter, decide_eq_true_eq]
    exact ⟨⟨hx, hx1⟩, hx2⟩

theorem RaiseWindow_owner_layer_witness :
    ((RaiseWindow (fun t => if t = 3 then some 4 else if t = 5 then some 6 else none)
        (some [3, 5]) 1 ⟨[], [1, 2], [7]⟩).1 =
      { aot := removeAll 6 (removeAll 4 ([] : List Nat)),
        norm := 6 :: 4 :: 1 ::
          removeAll 6 (removeAll 4 (([1, 2] : List Nat).erase 1)),
        aab := removeAll 6 (removeAll 4 ([7] : List Nat)) } ∧
    (∀ x ∈ (([1, 2] : List Nat).erase 1), x ≠ 4 → x ≠ 6 →
       x ∈ removeAll 6 (removeAll 4 (([1, 2] : List Nat).erase 1)))) :=
  RaiseWindow_owner_layer
    (fun t => if t = 3 then some 4 else if t = 5 then some 6 else none)
    ⟨[], [1, 2], [7]⟩ 1 3 5 4 6
    (by simp) (by simp) (by norm_num) (by norm_num)
    (by norm_num) (by norm_num) (by norm_num)

/-- The interaction modes of `EventHandler::move_resize`
(declared in the missing `Event.hh` header; the concrete integer values
never matter, only equality with `EndMoveResizeType`). -/
inductive MRMode
  | EndMoveResizeType
  | MoveType
  | MoveOpaqueType
  | ResizeType
  | ResizeOpaqueType
deriving Repr, DecidableEq

inductive EntryOutcome
  | refused
  | aborted
  | entered
deriving Repr, DecidableEq

structure EntryState where
  move_resize : MRMode
  win_move_resize : Bool
  attrib_x : Int
  attrib_y : Int
  attrib_width : Int
  attrib_height : Int
  dontsend : Bool
  outline : Bool
  pointer_grabbed : Bool
  keyboard_grabbed : Bool
  deleted : Bool
deriving Repr, DecidableEq

structure EntryEnv where
  isMapRequest : Bool
  px : Int
  py : Int
  validOK : Bool
  grabPointerOK : Bool
  grabKeyboardOK : Bool
deriving Repr, DecidableEq

def grabPhase (st : EntryState) (env : EntryEnv) : EntryOutcome × EntryState :=
  if env.validOK then
    if env.grabPointerOK = false then
      (.aborted, { st with win_move_resize := false,
                           move_resize := .EndMoveResizeType })
    else
      let st1 := { st with pointer_grabbed := true }
      if env.grabKeyboardOK = false then
        (.aborted, { st1 with win_move_resize := false,
                              move_resize := .EndMoveResizeType })
      else (.entered, { st1 with keyboard_grabbed := true })
  else (.entered, { st with deleted := true })

def MoveEntry (border_w title_w : Int) (st : EntryState) (env : EntryEnv) :
    EntryOutcome × EntryState :=
  if st.move_resize ≠ .EndMoveResizeType then (.refused, st)
  else
    let st1 := { st with move_resize := .MoveType, win_move_resize := true }
    let st2 := if env.isMapRequest then
        { st1 with attrib_x := env.px + border_w,
                   attrib_y := env.py + title_w + border_w,
                   outline := true }
      else st1
    grabPhase st2 env

def MoveOpaqueEntry (border_w title_w : Int) (st : EntryState) (env : EntryEnv) :
    EntryOutcome × EntryState :=
  if st.move_resize ≠ .EndMoveResizeType then (.refused, st)
  else
    let st1 := { st with move_resize := .MoveOpaqueType, win_move_resize := true }
    let st2 := if env.isMapRequest then
        { st1 with attrib_x := env.px + border_w,
                   attrib_y := env.py + title_w + border_w }
      else st1
    grabPhase { st2 with dontsend := true } env

def ResizeEntry (how border_w title_w : Int) (st : EntryState) (env : EntryEnv) :
    EntryOutcome × EntryState :=
  if st.move_resize ≠ .EndMoveResizeType then (.refused, st)
  else
    let st1 := { st with move_resize := .ResizeType, win_move_resize := true }
    let st2 := if env.isMapRequest then
        { st1 with
          attrib_x := if how > 0 then env.px - st.attrib_width - border_w * 2
                      else env.px,
          attrib_y := env.py - st.attrib_height - title_w - border_w * 4,
          outline := true }
      else st1
    grabPhase st2 env

def ResizeOpaqueEntry (how border_w title_w : Int) (st : EntryState)
    (env : EntryEnv) : EntryOutcome × EntryState :=
  if st.move_resize ≠ .EndMoveResizeType then (.refused, st)
  else
    let st1 := { st with dontsend := true, move_resize := .ResizeOpaqueType,
                         win_move_resize := true }
    let st2 := if env.isMapRequest then
        { st1 with
          attrib_x := if how > 0 then env.px - st.attrib_width - border_w * 2
                      else env.px,
          attrib_y := env.py - st.attrib_height - title_w - border_w * 4 }
      else st1
    grabPhase st2 env

def ViewportMoveEntry (st : EntryState) (env : EntryEnv) :
    EntryOutcome × EntryState :=
  if st.move_resize ≠ .EndMoveResizeType then (.refused, st)
  else
    (.entered, { st with move_resize := .MoveOpaqueType,
                         pointer_grabbed := env.grabPointerOK,
                         keyboard_grabbed := env.grabKeyboardOK })

/-- C2: every modal entry operation (`Move`, `MoveOpaque`, `Resize`,
`ResizeOpaque`, `ViewportMove`) invoked while the process-wide
`move_resize` mode is not `EndMoveResizeType` returns immediately at its
re-entrancy guard without changing any state. -/
theorem modal_entry_reentrancy_guard (st : EntryState) (env : EntryEnv)
    (how border_w title_w : Int)
    (hbusy : st.move_resize ≠ .EndMoveResizeType) :
    MoveEntry border_w title_w st env = (.refused, st) ∧
    MoveOpaqueEntry border_w title_w st env = (.refused, st) ∧
    ResizeEntry how border_w title_w st env = (.refused, st) ∧
    ResizeOpaqueEntry how border_w title_w st env = (.refused, st) ∧
    ViewportMoveEntry st env = (.refused, st) := by
  refine ⟨?_, ?_, ?_, ?_, ?_⟩ <;>
    simp [MoveEntry, MoveOpaqueEntry, ResizeEntry, ResizeOpaqueEntry,
      ViewportMoveEntry, hbusy]

theorem modal_entry_reentrancy_guard_witness :
    (MoveEntry 2 20 ⟨.MoveType, true, 0, 0, 100, 50, false, false, true, true, false⟩
        ⟨false, 5, 6, true, true, true⟩ =
      (.refused, ⟨.MoveType, true, 0, 0, 100, 50, false, false, true, true, false⟩)) ∧
    (ViewportMoveEntry ⟨.MoveType, true, 0, 0, 100, 50, false, false, true, true, false⟩
        ⟨false, 5, 6, true, true, true⟩ =
      (.refused, ⟨.MoveType, true, 0, 0, 100, 50, false, false, true, true, false⟩)) := by
  have h := modal_entry_reentrancy_guard
    ⟨.MoveType, true, 0, 0, 100, 50, false, false, true, true, false⟩
    ⟨false, 5, 6, true, true, true⟩ 1 2 20 (by decide)
  exact ⟨h.1, h.2.2.2.2⟩

/-- C5, counterexample: the claim says a failed grab aborts the session
with no grab left held and no outline proxy displayed.  Starting from the
idle state with nothing grabbed: if the pointer grab succeeds and the
keyboard grab fails, `Move` returns with `move_resize` reset but the
pointer still grabbed; and for a map-request-initiated `Move` whose
pointer grab fails, the outline proxy created before the grab attempt is
left displayed. -/
theorem grab_failure_keeps_pointer_and_outline :
    ((MoveEntry 2 20 ⟨.EndMoveResizeType, false, 0, 0, 100, 50, false, false,
        false, false, false⟩ ⟨false, 5, 6, true, true, false⟩).1 = .aborted ∧
     (MoveEntry 2 20 ⟨.EndMoveResizeType, false, 0, 0, 100, 50, false, false,
        false, false, false⟩ ⟨false, 5, 6, true, true, false⟩).2.move_resize =
       .EndMoveResizeType ∧
     (MoveEntry 2 20 ⟨.EndMoveResizeType, false, 0, 0, 100, 50, false, false,
        false, false, false⟩ ⟨false, 5, 6, true, true, false⟩).2.pointer_grabbed =
       true) ∧
    ((MoveEntry 2 20 ⟨.EndMoveResizeType, false, 0, 0, 100, 50, false, false,
        false, false, false⟩ ⟨true, 5, 6, true, false, true⟩).1 = .aborted ∧
     (MoveEntry 2 20 ⟨.EndMoveResizeType, false, 0, 0, 100, 50, false, false,
        false, false, false⟩ ⟨true, 5, 6, true, false, true⟩).2.outline = true) := by
  decide

/-- C5, amended: when either exclusive grab fails at `Move` or
`MoveOpaque` entry, the session aborts before entering the nested loop
and the interaction state reverts to Idle (`move_resize` back to
`EndMoveResizeType`, the window's `move_resize` flag cleared, the
keyboard never grabbed); however the pointer grab, when it succeeded
before the keyboard grab failed, is left held, and for a
map-request-initiated entry the position change and (for outline move)
the outline proxy displayed before the grab attempt are not undone. -/
theorem grab_failure_aborts (border_w title_w : Int) (st : EntryState)
    (env : EntryEnv)
    (hidle : st.move_resize = .EndMoveResizeType)
    (hvalid : env.validOK = true)
    (hfail : env.grabPointerOK = false ∨ env.grabKeyboardOK = false) :
    ((MoveEntry border_w title_w st env).1 = .aborted ∧
     (MoveEntry border_w title_w st env).2.move_resize = .EndMoveResizeType ∧
     (MoveEntry border_w title_w st env).2.win_move_resize = false ∧
     (MoveEntry border_w title_w st env).2.keyboard_grabbed = st.keyboard_grabbed ∧
     (MoveEntry border_w title_w st env).2.pointer_grabbed =
       (st.pointer_grabbed || env.grabPointerOK) ∧
     (MoveEntry border_w title_w st env).2.outline =
       (st.outline || env.isMapRequest)) ∧
    ((MoveOpaqueEntry border_w title_w st env).1 = .aborted ∧
     (MoveOpaqueEntry border_w title_w st env).2.move_resize = .EndMoveResizeType ∧
     (MoveOpaqueEntry border_w title_w st env).2.win_move_resize = false ∧
     (MoveOpaqueEntry border_w title_w st env).2.keyboard_grabbed =
       st.keyboard_grabbed ∧
     (MoveOpaqueEntry border_w title_w st env).2.pointer_grabbed =
       (st.pointer_grabbed || env.grabPointerOK) ∧
     (MoveOpaqueEntry border_w title_w st env).2.outline = st.outline) := by
  rcases hfail with hf | hf
  · rcases hm : env.isMapRequest <;>
      simp [MoveEntry, MoveOpaqueEntry, grabPhase, hidle, hvalid, hf, hm]
  · rcases hm : env.isMapRequest <;> rcases hp : env.grabPointerOK <;>
      simp [MoveEntry, MoveOpaqueEntry, grabPhase, hidle, hvalid, hf, hm, hp]

theorem grab_failure_aborts_witness :
    ((MoveEntry 2 20 ⟨.EndMoveResizeType, false, 0, 0, 100, 50, false, false,
        false, false, false⟩ ⟨false, 5, 6, true, true, false⟩).1 = .aborted ∧
     (MoveEntry 2 20 ⟨.EndMoveResizeType, false, 0, 0, 100, 50, false, false,
        false, false, false⟩ ⟨false, 5, 6, true, true, false⟩).2.move_resize =
       .EndMoveResizeType ∧
     (MoveEntry 2 20 ⟨.EndMoveResizeType, false, 0, 0, 100, 50, false, false,
        false, false, false⟩ ⟨false, 5, 6, true, true, false⟩).2.win_move_resize =
       false ∧
     (MoveEntry 2 20 ⟨.EndMoveResizeType, false, 0, 0, 100, 50, false, false,
        false, false, false⟩ ⟨false, 5, 6, true, true, false⟩).2.keyboard_grabbed =
       false ∧
     (MoveEntry 2 20 ⟨.EndMoveResizeType, false, 0, 0, 100, 50, false, false,
        false, false, false⟩ ⟨false, 5, 6, true, true, false⟩).2.pointer_grabbed =
       (false || true) ∧
     (MoveEntry 2 20 ⟨.EndMoveResizeType, false, 0, 0, 100, 50, false, false,
        false, false, false⟩ ⟨false, 5, 6, true, true, false⟩).2.outline =
       (false || false)) ∧
    ((MoveOpaqueEntry 2 20 ⟨.EndMoveResizeType, false, 0, 0, 100, 50, false, false,
        false, false, false⟩ ⟨false, 5, 6, true, true, false⟩).1 = .aborted ∧
     (MoveOpaqueEntry 2 20 ⟨.EndMoveResizeType, false, 0, 0, 100, 50, false, false,
        false, false, false⟩ ⟨false, 5, 6, true, true, false⟩).2.move_resize =
       .EndMoveResizeType ∧
     (MoveOpaqueEntry 2 20 ⟨.EndMoveResizeType, false, 0, 0, 100, 50, false, false,
        false, false, false⟩ ⟨false, 5, 6, true, true, false⟩).2.win_move_resize =
       false ∧
     (MoveOpaqueEntry 2 20 ⟨.EndMoveResizeType, false, 0, 0, 100, 50, false, false,
        false, false, false⟩ ⟨false, 5, 6, true, true, false⟩).2.keyboard_grabbed =
       false ∧
     (MoveOpaqueEntry 2 20 ⟨.EndMoveResizeType, false, 0, 0, 100, 50, false, false,
        false, false, false⟩ ⟨false, 5, 6, true, true, false⟩).2.pointer_grabbed =
       (false || true) ∧
     (MoveOpaqueEntry 2 20 ⟨.EndMoveResizeType, false, 0, 0, 100, 50, false, false,
        false, false, false⟩ ⟨false, 5, 6, true, true, false⟩).2.outline = false) :=
  grab_failure_aborts 2 20
    ⟨.EndMoveResizeType, false, 0, 0, 100, 50, false, false, false, false, false⟩
    ⟨false, 5, 6, true, true, false⟩ rfl rfl (Or.inr rfl)

end Waimea

